import Mathlib

/-!
Verification of the hop repository (src/hop/constants.py and
src/hop/drone_model.py): a configuration registry of physical and
solver constants, and a continuous-time rigid-body dynamics model of a
thrust-vectored drone.  The embedding below translates the numeric
content of both files over the real numbers: the 13-component state
vector is a function `Fin 13 → ℝ` (position 0-2, velocity 3-5,
quaternion 6-9, angular velocity 10-12, as in the vertcat of
drone_model.py), the 4-component control is `Fin 4 → ℝ`.
-/

namespace Hop

namespace Constants

/-- constants.py: self.timelimit = 1 -/
def timelimit : ℕ := 1

/-- constants.py: self.m = 1.5 (mass of drone in kg) -/
def m : ℝ := 1.5

/-- constants.py: self.l = 0.18 (thrust point to center of mass, m) -/
def l : ℝ := 0.18

/-- constants.py: self.gx = 0 -/
def gx : ℝ := 0

/-- constants.py: self.gy = 0 -/
def gy : ℝ := 0

/-- constants.py: self.gz = -9.81 -/
def gz : ℝ := -9.81

/-- constants.py: self.g = np.array([gx, gy, gz]) -/
def g : Fin 3 → ℝ := ![gx, gy, gz]

/-- constants.py: self.Ixx = 0.06 -/
def Ixx : ℝ := 0.06

/-- constants.py: self.Iyy = 0.06 -/
def Iyy : ℝ := 0.06

/-- constants.py: self.Izz = 0.012 -/
def Izz : ℝ := 0.012

/-- constants.py: self.moment_arm = np.array([0, 0, -l/2]) -/
noncomputable def moment_arm : Fin 3 → ℝ := ![0, 0, -l / 2]

/-- constants.py: self.I = np.array([[Ixx,0,0],[0,Iyy,0],[0,0,Izz]]) -/
def I : Matrix (Fin 3) (Fin 3) ℝ :=
  Matrix.of ![![Ixx, 0, 0], ![0, Iyy, 0], ![0, 0, Izz]]

/-- constants.py: self.I_diag = [Ixx, Iyy, Izz] -/
def I_diag : Fin 3 → ℝ := ![Ixx, Iyy, Izz]

/-- constants.py: self.I_inv = np.linalg.inv(self.I).  The numerical
matrix inverse is modelled as the (adjugate-based) Mathlib matrix
inverse of the exact matrix `I`. -/
noncomputable def I_inv : Matrix (Fin 3) (Fin 3) ℝ := I⁻¹

/-- constants.py: self.tcc = 1.6 (thrust curve constant) -/
def tcc : ℝ := 1.6

/-- constants.py: self.a = 1.327 * tcc -/
noncomputable def a : ℝ := 1.327 * tcc

/-- constants.py: self.b = 0.284 * tcc -/
noncomputable def b : ℝ := 0.284 * tcc

/-- constants.py: self.c = -0.015 * tcc -/
noncomputable def c : ℝ := -0.015 * tcc

/-- constants.py: self.d = 0.1 (yaw coupling of differential thrust) -/
def d : ℝ := 0.1

/-- constants.py: self.hover_thrust = 2.529 (throttle command to hover) -/
def hover_thrust : ℝ := 2.529

/-- Python left-justified field formatting: a string padded on the
right with spaces up to the given width (unchanged if longer). -/
def pad (s : String) (w : Nat) : String :=
  s ++ String.mk (List.replicate (w - s.length) ' ')

/-- constants.py Constants.__repr__: the textual rendering of the
registry, built line by line exactly as the source concatenates it.
The rendered values of the fields (Python str() output, including the
renderings of numpy arrays and of the casadi matrices x0, Q, R, xr, ur,
which are produced by those external libraries) are embedded as the
corresponding string literals. -/
def describe : String :=
  "Constants \n" ++ "---------------------\n" ++
  "General constants: \n" ++
  "-----------------------------------------------\n" ++
  pad "flight time:" 15 ++ "  " ++ pad "1" 15 ++ "\n" ++
  "Model related constants: \n" ++
  "-----------------------------------------------\n" ++
  pad "m:" 10 ++ "  " ++ pad "1.5" 15 ++ "\n" ++
  pad "l:" 10 ++ "  " ++ pad "0.18" 15 ++ "\n" ++
  pad "gx:" 10 ++ "  " ++ pad "0" 15 ++ "\n" ++
  pad "gy:" 10 ++ "  " ++ pad "0" 15 ++ "\n" ++
  pad "gz:" 10 ++ "  " ++ pad "-9.81" 15 ++ "\n" ++
  pad "g:" 10 ++ "  " ++ pad "[0.0, 0.0, -9.81]" 15 ++ "\n" ++
  pad "Ixx:" 10 ++ "  " ++ pad "0.06" 15 ++ "\n" ++
  pad "Iyy:" 10 ++ "  " ++ pad "0.06" 15 ++ "\n" ++
  pad "Izz:" 10 ++ "  " ++ pad "0.012" 15 ++ "\n" ++
  pad "moment arm:" 20 ++ "  " ++ "[0.0, 0.0, -0.09]" ++ "\n" ++
  pad "I_inv:" 20 ++ "  " ++
    "[[16.666666666666668, 0.0, 0.0], [0.0, 16.666666666666668, 0.0], [0.0, 0.0, 83.33333333333334]]" ++
    "\n" ++
  "thrust model constants: \n" ++
  "-----------------------------------------------\n" ++
  pad "tcc:" 10 ++ "  " ++ pad "1.6" 15 ++ "\n" ++
  pad "a:" 10 ++ "  " ++ pad "2.1232" 15 ++ "\n" ++
  pad "b:" 10 ++ "  " ++ pad "0.4544" 15 ++ "\n" ++
  pad "c:" 10 ++ "  " ++ pad "-0.024" 15 ++ "\n" ++
  pad "d:" 10 ++ "  " ++ pad "0.1" 15 ++ "\n" ++
  "Mechanical and hardware constants: \n" ++
  "-----------------------------------------------\n" ++
  pad "outer gimbal range:" 20 ++ "  " ++ "[-20, 20]" ++ "\n" ++
  pad "inner gimbal range:" 20 ++ "  " ++ "[-13.5, 13.5]" ++ "\n" ++
  pad "theta dot max:" 20 ++ "  " ++ "6.16" ++ "\n" ++
  pad "thrust dot max:" 20 ++ "  " ++ "20.0" ++ "\n" ++
  pad "hover thrust:" 20 ++ "  " ++ "2.529" ++ "\n" ++
  pad "max thrust:" 20 ++ "  " ++ "50.0" ++ "\n" ++
  pad "max diff thrus:" 20 ++ "  " ++ "[-0.8, 0.8]" ++ "\n" ++
  "NMPC constants: \n" ++
  "-----------------------------------------------\n" ++
  pad "dt:" 10 ++ "  " ++ pad "0.02" 15 ++ "\n" ++
  pad "x0:" 10 ++ "  " ++ "[0, 0, 0, 0, 0, 0, 0, 0, 0, 1, 0, 0, 0]" ++ "\n" ++
  pad "Q:" 10 ++ "  " ++ "DM(eye(13))" ++ "\n" ++
  pad "R:" 10 ++ "  " ++ "DM(diag([0.03, 0.03, 1, 0.03]))" ++ "\n" ++
  pad "xr:" 10 ++ "  " ++ "[0, 0, 0, 0, 0, 0, 0, 0, 0, 1, 0, 0, 0]" ++ "\n" ++
  pad "ur:" 10 ++ "  " ++ "[0, 0, 2.529, 0]" ++ "\n" ++
  pad "waypoints:" 20 ++ "  " ++
    pad "[array([0., 0., 0.]), array([0., 0., 0.25]), array([0., 0., 0.])]" 15 ++
    "\n" ++
  pad "NMPC rate constraints:" 20 ++ "  " ++ "False" ++ "\n" ++
  "NLP constants: \n" ++
  "-----------------------------------------------\n" ++
  pad "nmpc horizon:" 20 ++ "  " ++ pad "100" 15 ++ "\n" ++
  pad "spectral order:" 20 ++ "  " ++ pad "6" 15 ++ "\n" ++
  pad "size of intervals:" 20 ++ "  " ++ pad "0.3" 15 ++ "\n" ++
  pad "num intervals:" 20 ++ "  " ++ pad "6" 15 ++ "\n" ++
  pad "collocation deg:" 20 ++ "  " ++ pad "2" 15 ++ "\n" ++
  "IPOPT settings: \n" ++
  "-----------------------------------------------\n" ++
  "\x7b\x27ipopt.max_iter\x27: 100, \x27ipopt.tol\x27: 0.001, \x27ipopt.acceptable_tol\x27: 0.0001, \x27ipopt.print_level\x27: 0, \x27ipopt.sb\x27: \x27yes\x27, \x27print_time\x27: 0, \x27ipopt.linear_solver\x27: \x27ma27\x27\x7d"

/-- The seven section labels of the rendering, in declaration order:
general, model, thrust-model, mechanical, NMPC, NLP, solver-tuning. -/
def sectionLabels : List String :=
  ["General constants:", "Model related constants:", "thrust model constants:",
   "Mechanical and hardware constants:", "NMPC constants:", "NLP constants:",
   "IPOPT settings:"]

end Constants

/-- Remainder of a character list after the first occurrence of a
pattern, none when the pattern does not occur. -/
def takeAfter (pat : List Char) : List Char → Option (List Char)
  | [] => if pat.isPrefixOf ([] : List Char) then some [] else none
  | ch :: rest =>
    if pat.isPrefixOf (ch :: rest) then some ((ch :: rest).drop pat.length)
    else takeAfter pat rest

/-- All the patterns occur in the text, in order. -/
def containsAllInOrder : List (List Char) → List Char → Bool
  | [], _ => true
  | p :: ps, s =>
    match takeAfter p s with
    | some rest => containsAllInOrder ps rest
    | none => false

namespace DroneModel

/-- casadi ca.cross on 3-vectors: the standard cross product. -/
def ca_cross (p q : Fin 3 → ℝ) : Fin 3 → ℝ :=
  ![p 1 * q 2 - p 2 * q 1, p 2 * q 0 - p 0 * q 2, p 0 * q 1 - p 1 * q 0]

/-- casadi ca.norm_2 on a 4-vector: the Euclidean 2-norm. -/
noncomputable def norm_2 (v : Fin 4 → ℝ) : ℝ := Real.sqrt (∑ i, v i ^ 2)

/-- drone_model.py: I_mat = ca.diag(mc.I_diag) -/
def I_mat : Matrix (Fin 3) (Fin 3) ℝ := Matrix.diagonal Constants.I_diag

/-- drone_model.py: F = mc.a * u[2]**2 + mc.b * u[2] + mc.c -/
noncomputable def F (u : Fin 4 → ℝ) : ℝ :=
  Constants.a * u 2 ^ 2 + Constants.b * u 2 + Constants.c

/-- drone_model.py: M = mc.d * mc.Izz * u[3] -/
def M (u : Fin 4 → ℝ) : ℝ := Constants.d * Constants.Izz * u 3

/-- drone_model.py: F_vector = F * vertcat(sin((pi/180)*u[1]),
-sin((pi/180)*u[0])*cos((pi/180)*u[1]), cos((pi/180)*u[0])*cos((pi/180)*u[1])) -/
noncomputable def F_vector (u : Fin 4 → ℝ) : Fin 3 → ℝ := fun i =>
  F u * ![Real.sin (Real.pi / 180 * u 1),
          -Real.sin (Real.pi / 180 * u 0) * Real.cos (Real.pi / 180 * u 1),
          Real.cos (Real.pi / 180 * u 0) * Real.cos (Real.pi / 180 * u 1)] i

/-- drone_model.py: roll_moment = ca.vertcat(0, 0, M) -/
def roll_moment (u : Fin 4 → ℝ) : Fin 3 → ℝ := ![0, 0, M u]

/-- drone_model.py: M_vector = ca.cross(mc.moment_arm, F_vector) + roll_moment -/
noncomputable def M_vector (u : Fin 4 → ℝ) : Fin 3 → ℝ := fun i =>
  ca_cross Constants.moment_arm (F_vector u) i + roll_moment u i

/-- the velocity block of the state: state[3:6] -/
def v_state (x : Fin 13 → ℝ) : Fin 3 → ℝ := ![x 3, x 4, x 5]

/-- the quaternion block of the state: state[6:10] -/
def q_state (x : Fin 13 → ℝ) : Fin 4 → ℝ := ![x 6, x 7, x 8, x 9]

/-- the angular-velocity block of the state: state[10:13] -/
def w_state (x : Fin 13 → ℝ) : Fin 3 → ℝ := ![x 10, x 11, x 12]

/-- drone_model.py: angular_momentum = I_mat @ w -/
def angular_momentum (x : Fin 13 → ℝ) : Fin 3 → ℝ := I_mat.mulVec (w_state x)

/-- drone_model.py: r_b2w, the body-to-world rotation matrix, built from
the raw quaternion components state[6..9]. -/
def r_b2w (x : Fin 13 → ℝ) : Matrix (Fin 3) (Fin 3) ℝ :=
  Matrix.of
    ![![1 - 2 * (x 7 ^ 2 + x 8 ^ 2), 2 * (x 6 * x 7 - x 8 * x 9), 2 * (x 6 * x 8 + x 7 * x 9)],
      ![2 * (x 6 * x 7 + x 8 * x 9), 1 - 2 * (x 6 ^ 2 + x 8 ^ 2), 2 * (x 7 * x 8 - x 6 * x 9)],
      ![2 * (x 6 * x 8 - x 7 * x 9), 2 * (x 7 * x 8 + x 6 * x 9), 1 - 2 * (x 6 ^ 2 + x 7 ^ 2)]]

/-- drone_model.py: Q_omega, the quaternion kinematics matrix, built
from the angular-velocity components state[10..12]. -/
def Q_omega (x : Fin 13 → ℝ) : Matrix (Fin 4) (Fin 4) ℝ :=
  Matrix.of
    ![![0, x 12, -x 11, x 10],
      ![-x 12, 0, x 10, x 11],
      ![x 11, -x 10, 0, x 12],
      ![-x 10, -x 11, -x 12, 0]]

/-- drone_model.py: q_full = state[6:10]; q_full = q_full / ca.norm_2(q_full) -/
noncomputable def q_full (x : Fin 13 → ℝ) : Fin 4 → ℝ := fun i =>
  q_state x i / norm_2 (q_state x)

/-- casadi ca.solve(A, b): the solution of the linear system A z = b,
which for invertible A is A⁻¹ b (Mathlib adjugate-based inverse). -/
noncomputable def caSolve (A : Matrix (Fin 3) (Fin 3) ℝ) (bv : Fin 3 → ℝ) : Fin 3 → ℝ :=
  A⁻¹.mulVec bv

/-- drone_model.py rhs of p: v -/
def rhs_p (x : Fin 13 → ℝ) : Fin 3 → ℝ := v_state x

/-- drone_model.py rhs of v: (r_b2w @ F_vector) / mc.m + mc.g -/
noncomputable def rhs_v (x : Fin 13 → ℝ) (u : Fin 4 → ℝ) : Fin 3 → ℝ := fun i =>
  (r_b2w x).mulVec (F_vector u) i / Constants.m + Constants.g i

/-- drone_model.py rhs of q: 0.5 * Q_omega @ q_full -/
noncomputable def rhs_q (x : Fin 13 → ℝ) : Fin 4 → ℝ := fun i =>
  0.5 * (Q_omega x).mulVec (q_full x) i

/-- drone_model.py rhs of w: ca.solve(I_mat, M_vector - ca.cross(w, angular_momentum)) -/
noncomputable def rhs_w (x : Fin 13 → ℝ) (u : Fin 4 → ℝ) : Fin 3 → ℝ :=
  caSolve I_mat (fun i => M_vector u i - ca_cross (w_state x) (angular_momentum x) i)

end DroneModel

/-- Spec-side thrust vector, written from the words of the spec:
F_vec = F · (sin(π·u1/180), −sin(π·u0/180)·cos(π·u1/180),
cos(π·u0/180)·cos(π·u1/180)) with F = a·u2² + b·u2 + c. -/
noncomputable def F_vec_spec (u : Fin 4 → ℝ) : Fin 3 → ℝ := fun i =>
  (Constants.a * u 2 ^ 2 + Constants.b * u 2 + Constants.c) *
    ![Real.sin (Real.pi * u 1 / 180),
      -Real.sin (Real.pi * u 0 / 180) * Real.cos (Real.pi * u 1 / 180),
      Real.cos (Real.pi * u 0 / 180) * Real.cos (Real.pi * u 1 / 180)] i

/-- Spec-side rotation matrix from a quaternion 4-vector (vector part
q0,q1,q2, scalar part q3), the standard quaternion-to-rotation formula
as displayed in the spec. -/
def R_spec (q : Fin 4 → ℝ) : Matrix (Fin 3) (Fin 3) ℝ :=
  Matrix.of
    ![![1 - 2 * (q 1 ^ 2 + q 2 ^ 2), 2 * (q 0 * q 1 - q 2 * q 3), 2 * (q 0 * q 2 + q 1 * q 3)],
      ![2 * (q 0 * q 1 + q 2 * q 3), 1 - 2 * (q 0 ^ 2 + q 2 ^ 2), 2 * (q 1 * q 2 - q 0 * q 3)],
      ![2 * (q 0 * q 2 - q 1 * q 3), 2 * (q 1 * q 2 + q 0 * q 3), 1 - 2 * (q 0 ^ 2 + q 1 ^ 2)]]

/-- Spec-side net moment: M_vec = moment_arm × F_vec + (0, 0, d·Izz·u3). -/
noncomputable def M_vec_spec (u : Fin 4 → ℝ) : Fin 3 → ℝ := fun i =>
  DroneModel.ca_cross Constants.moment_arm (F_vec_spec u) i +
    ![0, 0, Constants.d * Constants.Izz * u 3] i

/-- Spec-side angular momentum: L = I · w, with I the registry inertia tensor. -/
def L_spec (x : Fin 13 → ℝ) : Fin 3 → ℝ := Constants.I.mulVec (DroneModel.w_state x)

/-- The analytic inverse of the diagonal inertia tensor: the diagonal
matrix of reciprocals (1/Ixx, 1/Iyy, 1/Izz), as the spec states it. -/
noncomputable def I_inv_analytic : Matrix (Fin 3) (Fin 3) ℝ :=
  Matrix.diagonal ![1 / Constants.Ixx, 1 / Constants.Iyy, 1 / Constants.Izz]

/-- Test state: identity orientation quaternion (0,0,0,1), zero
position, velocity and angular velocity. -/
def x_id : Fin 13 → ℝ := ![0, 0, 0, 0, 0, 0, 0, 0, 0, 1, 0, 0, 0]

/-- Test control: zero gimbal angles, hover throttle, zero differential
thrust. -/
def u_hover : Fin 4 → ℝ := ![0, 0, Constants.hover_thrust, 0]

lemma I_mul_analytic : Constants.I * I_inv_analytic = 1 := by
  ext i j
  fin_cases i <;> fin_cases j <;>
    simp [Constants.I, I_inv_analytic, Matrix.mul_apply, Fin.sum_univ_three,
      Matrix.diagonal, Matrix.one_apply, Constants.Ixx, Constants.Iyy,
      Constants.Izz] <;> norm_num

lemma I_inv_eq_analytic : Constants.I_inv = I_inv_analytic :=
  Matrix.inv_eq_right_inv I_mul_analytic

/-- C7: for the default registry, the product of the inertia tensor with
its computed inverse matches the 3×3 identity entrywise within 1e-9, and
the computed inverse agrees with the analytic diagonal inverse
(1/Ixx, 1/Iyy, 1/Izz). -/
theorem C7_inertia_inverse :
    (∀ i j, |(Constants.I * Constants.I_inv) i j -
      (1 : Matrix (Fin 3) (Fin 3) ℝ) i j| ≤ 1e-9) ∧
    Constants.I_inv =
      Matrix.diagonal ![1 / Constants.Ixx, 1 / Constants.Iyy, 1 / Constants.Izz] := by
  constructor
  · intro i j
    rw [I_inv_eq_analytic, I_mul_analytic]
    simp
    norm_num
  · exact I_inv_eq_analytic

lemma F_vector_eq_spec (u : Fin 4 → ℝ) : DroneModel.F_vector u = F_vec_spec u := by
  funext i
  fin_cases i <;>
    simp only [DroneModel.F_vector, DroneModel.F, F_vec_spec, Matrix.cons_val_zero,
      Matrix.cons_val_one, Matrix.head_cons, Matrix.cons_val_two, Matrix.tail_cons] <;>
    ring_nf

lemma r_b2w_eq_R_spec (x : Fin 13 → ℝ) :
    DroneModel.r_b2w x = R_spec (DroneModel.q_state x) := by
  ext i j
  fin_cases i <;> fin_cases j <;>
    simp [DroneModel.r_b2w, R_spec, DroneModel.q_state]

/-- C1: the velocity derivative built by DroneModel equals
(R(q) · F_vec) / m + g with R applied to the raw quaternion components
of the state, F_vec the gimbaled thrust vector of the spec, and m, g the
registry constants. -/
theorem C1_velocity_rhs_formula (x : Fin 13 → ℝ) (u : Fin 4 → ℝ) :
    DroneModel.rhs_v x u = fun i =>
      (R_spec (DroneModel.q_state x)).mulVec (F_vec_spec u) i / Constants.m +
        Constants.g i := by
  funext i
  rw [DroneModel.rhs_v, r_b2w_eq_R_spec, F_vector_eq_spec]

lemma I_mat_mul_analytic : DroneModel.I_mat * I_inv_analytic = 1 := by
  ext i j
  fin_cases i <;> fin_cases j <;>
    simp [DroneModel.I_mat, I_inv_analytic, Matrix.mul_apply, Fin.sum_univ_three,
      Matrix.diagonal, Matrix.one_apply, Constants.I_diag, Constants.Ixx,
      Constants.Iyy, Constants.Izz] <;> norm_num

lemma I_mat_inv_eq_analytic : DroneModel.I_mat⁻¹ = I_inv_analytic :=
  Matrix.inv_eq_right_inv I_mat_mul_analytic

lemma I_eq_I_mat : Constants.I = DroneModel.I_mat := by
  ext i j
  fin_cases i <;> fin_cases j <;>
    simp [Constants.I, DroneModel.I_mat, Matrix.diagonal, Constants.I_diag,
      Matrix.vecHead, Matrix.vecTail]

lemma M_vector_eq_spec (u : Fin 4 → ℝ) : DroneModel.M_vector u = M_vec_spec u := by
  funext i
  rw [DroneModel.M_vector, M_vec_spec, F_vector_eq_spec, DroneModel.roll_moment,
    DroneModel.M]

/-- C2: the angular-velocity derivative computed via the linear solve
against I equals the explicit-inverse formulation
I⁻¹ · (M_vec − w × L) with I⁻¹ the analytic diagonal inverse,
M_vec = moment_arm × F_vec + (0, 0, d·Izz·u3) and L = I · w. -/
theorem C2_angular_rhs_linear_solve_eq_inverse (x : Fin 13 → ℝ) (u : Fin 4 → ℝ) :
    DroneModel.rhs_w x u = fun i =>
      I_inv_analytic.mulVec
        (fun j => M_vec_spec u j -
          DroneModel.ca_cross (DroneModel.w_state x) (L_spec x) j) i := by
  funext i
  rw [DroneModel.rhs_w, DroneModel.caSolve, I_mat_inv_eq_analytic]
  have hL : DroneModel.angular_momentum x = L_spec x := by
    rw [DroneModel.angular_momentum, L_spec, I_eq_I_mat]
  rw [M_vector_eq_spec, hL]

/-- C3: with the literal default constants, the thrust polynomial at the
hover throttle command balances the weight m·9.81 to within 0.05 N. -/
theorem C3_hover_thrust_balances_weight :
    |Constants.a * Constants.hover_thrust ^ 2 + Constants.b * Constants.hover_thrust +
      Constants.c - Constants.m * 9.81| ≤ 0.05 := by
  rw [abs_le]
  constructor <;>
    norm_num [Constants.a, Constants.b, Constants.c, Constants.m,
      Constants.tcc, Constants.hover_thrust]

lemma F_vector_u_hover :
    DroneModel.F_vector u_hover = ![0, 0, DroneModel.F u_hover] := by
  funext i
  fin_cases i <;>
    simp [DroneModel.F_vector, show u_hover 0 = 0 from rfl,
      show u_hover 1 = 0 from rfl]

lemma r_b2w_x_id : DroneModel.r_b2w x_id = 1 := by
  ext i j
  fin_cases i <;> fin_cases j <;>
    simp [DroneModel.r_b2w, Matrix.one_apply, Matrix.vecHead, Matrix.vecTail,
      show x_id 6 = 0 from rfl, show x_id 7 = 0 from rfl,
      show x_id 8 = 0 from rfl, show x_id 9 = 1 from rfl]

/-- C4: at the identity-orientation rest state with hover throttle, the
translational acceleration is exactly zero in x and y, and its z
component is (a·h² + b·h + c)/m − 9.81, within 0.01 of zero for the
default constants. -/
theorem C4_hover_acceleration_near_zero :
    DroneModel.rhs_v x_id u_hover 0 = 0 ∧
    DroneModel.rhs_v x_id u_hover 1 = 0 ∧
    DroneModel.rhs_v x_id u_hover 2 =
      (Constants.a * Constants.hover_thrust ^ 2 +
        Constants.b * Constants.hover_thrust + Constants.c) / Constants.m - 9.81 ∧
    |DroneModel.rhs_v x_id u_hover 2| ≤ 0.01 := by
  have hv : ∀ i, DroneModel.rhs_v x_id u_hover i =
      ![0, 0, DroneModel.F u_hover] i / Constants.m + Constants.g i := by
    intro i
    rw [DroneModel.rhs_v, r_b2w_x_id, F_vector_u_hover, Matrix.one_mulVec]
  have hF : DroneModel.F u_hover =
      Constants.a * Constants.hover_thrust ^ 2 +
        Constants.b * Constants.hover_thrust + Constants.c := rfl
  refine ⟨?_, ?_, ?_, ?_⟩
  · rw [hv]
    simp [Constants.g, Constants.gx]
  · rw [hv]
    simp [Constants.g, Constants.gy]
  · rw [hv, hF]
    simp [Constants.g, Constants.gz]
    ring
  · rw [hv, hF]
    have h2 : (![0, 0, Constants.a * Constants.hover_thrust ^ 2 +
        Constants.b * Constants.hover_thrust + Constants.c] :
          Fin 3 → ℝ) 2 = Constants.a * Constants.hover_thrust ^ 2 +
        Constants.b * Constants.hover_thrust + Constants.c := rfl
    rw [h2, abs_le]
    constructor <;>
      norm_num [Constants.a, Constants.b, Constants.c, Constants.m,
        Constants.tcc, Constants.hover_thrust, Constants.g, Constants.gz]

/-- C5: whenever the quaternion part of the state is nonzero and the
angular velocity is zero, the kinematics matrix Q_omega is the zero
matrix and the quaternion derivative is exactly the zero 4-vector. -/
theorem C5_zero_omega_zero_quaternion_derivative (x : Fin 13 → ℝ)
    (hq : DroneModel.q_state x ≠ 0)
    (h10 : x 10 = 0) (h11 : x 11 = 0) (h12 : x 12 = 0) :
    DroneModel.Q_omega x = 0 ∧ DroneModel.rhs_q x = fun _ => 0 := by
  have hQ : DroneModel.Q_omega x = 0 := by
    ext i j
    fin_cases i <;> fin_cases j <;>
      simp [DroneModel.Q_omega, Matrix.vecHead, Matrix.vecTail, h10, h11, h12]
  refine ⟨hQ, ?_⟩
  funext i
  simp [DroneModel.rhs_q, hQ]

/-- C5 witness: the hypotheses and conclusion at the identity-quaternion
rest state. -/
theorem C5_zero_omega_witness :
    (DroneModel.q_state x_id ≠ 0 ∧ x_id 10 = 0 ∧ x_id 11 = 0 ∧ x_id 12 = 0) ∧
    (DroneModel.Q_omega x_id = 0 ∧ DroneModel.rhs_q x_id = fun _ => 0) := by
  have hq : DroneModel.q_state x_id ≠ 0 := by
    intro hcon
    have h9 := congrFun hcon 3
    rw [show DroneModel.q_state x_id 3 = 1 from rfl] at h9
    exact one_ne_zero (h9.trans rfl)
  exact ⟨⟨hq, rfl, rfl, rfl⟩,
    C5_zero_omega_zero_quaternion_derivative x_id hq rfl rfl rfl⟩

/-- C6: for any state whose quaternion components have unit 2-norm, the
rotation matrix built by the model is orthogonal: Rᵗ · R = 1 exactly
under real arithmetic. -/
theorem C6_rotation_matrix_orthogonal (x : Fin 13 → ℝ)
    (h : x 6 ^ 2 + x 7 ^ 2 + x 8 ^ 2 + x 9 ^ 2 = 1) :
    (DroneModel.r_b2w x).transpose * DroneModel.r_b2w x = 1 := by
  ext i j
  fin_cases i <;> fin_cases j <;>
    simp [DroneModel.r_b2w, Matrix.transpose_apply, Matrix.mul_apply,
      Fin.sum_univ_three, Matrix.one_apply, Matrix.vecHead, Matrix.vecTail]
  · linear_combination (4 * (x 7 ^ 2 + x 8 ^ 2)) * h
  · linear_combination (-4 * (x 6 * x 7)) * h
  · linear_combination (-4 * (x 6 * x 8)) * h
  · linear_combination (-4 * (x 6 * x 7)) * h
  · linear_combination (4 * (x 6 ^ 2 + x 8 ^ 2)) * h
  · linear_combination (-4 * (x 7 * x 8)) * h
  · linear_combination (-4 * (x 6 * x 8)) * h
  · linear_combination (-4 * (x 7 * x 8)) * h
  · linear_combination (4 * (x 6 ^ 2 + x 7 ^ 2)) * h

/-- C6 witness: the unit-norm hypothesis and the orthogonality
conclusion at the identity quaternion state. -/
theorem C6_rotation_witness :
    (x_id 6 ^ 2 + x_id 7 ^ 2 + x_id 8 ^ 2 + x_id 9 ^ 2 = 1) ∧
    (DroneModel.r_b2w x_id).transpose * DroneModel.r_b2w x_id = 1 :=
  ⟨by norm_num [show x_id 6 = 0 from rfl, show x_id 7 = 0 from rfl,
      show x_id 8 = 0 from rfl, show x_id 9 = 1 from rfl],
   C6_rotation_matrix_orthogonal x_id
     (by norm_num [show x_id 6 = 0 from rfl, show x_id 7 = 0 from rfl,
        show x_id 8 = 0 from rfl, show x_id 9 = 1 from rfl])⟩

set_option maxRecDepth 100000 in
/-- C8: the textual rendering of the registry is non-empty and contains
the seven declared section labels in declaration order.  The rendering
is a closed term, so it is the same on every evaluation and reads only
the registry fields. -/
theorem C8_describe_sections :
    Constants.describe ≠ "" ∧
    containsAllInOrder (Constants.sectionLabels.map String.toList)
      Constants.describe.toList = true := by
  constructor
  · decide
  · decide

/-- C9: the quaternion normalization divides by the 2-norm of the raw
quaternion with no guard: that norm is zero on the all-zero quaternion,
and under the precondition that the quaternion part of the state is
nonzero the divisor is nonzero, so division by zero is unreachable. -/
theorem C9_normalization_divisor_nonzero (x : Fin 13 → ℝ)
    (hq : DroneModel.q_state x ≠ 0) :
    DroneModel.norm_2 (DroneModel.q_state x) ≠ 0 ∧
    DroneModel.norm_2 (fun _ => 0) = 0 := by
  constructor
  · obtain ⟨i, hi⟩ := Function.ne_iff.mp hq
    simp only [Pi.zero_apply] at hi
    have hpos : 0 < ∑ j, DroneModel.q_state x j ^ 2 := by
      have hterm : 0 < DroneModel.q_state x i ^ 2 :=
        lt_of_le_of_ne (sq_nonneg _) (Ne.symm (pow_ne_zero 2 hi))
      exact Finset.sum_pos' (fun j _ => sq_nonneg _) ⟨i, Finset.mem_univ i, hterm⟩
    rw [DroneModel.norm_2]
    exact Real.sqrt_ne_zero'.mpr hpos
  · rw [DroneModel.norm_2]
    simp

/-- C9 witness: at the identity quaternion state the precondition holds
and the divisor is nonzero. -/
theorem C9_normalization_witness :
    DroneModel.q_state x_id ≠ 0 ∧
    (DroneModel.norm_2 (DroneModel.q_state x_id) ≠ 0 ∧
      DroneModel.norm_2 (fun _ => 0) = 0) := by
  have hq : DroneModel.q_state x_id ≠ 0 := by
    intro hcon
    have h9 := congrFun hcon 3
    rw [show DroneModel.q_state x_id 3 = 1 from rfl] at h9
    exact one_ne_zero (h9.trans rfl)
  exact ⟨hq, C9_normalization_divisor_nonzero x_id hq⟩

/-- C10: the kinematics matrix is skew-symmetric, and the quaternion
derivative is orthogonal to the quaternion, so the kinematics preserves
the quaternion 2-norm along the flow. -/
theorem C10_skew_symmetric_and_norm_preserving (x : Fin 13 → ℝ)
    (hq : DroneModel.q_state x ≠ 0) :
    (DroneModel.Q_omega x).transpose = -DroneModel.Q_omega x ∧
    Matrix.dotProduct (DroneModel.q_state x) (DroneModel.rhs_q x) = 0 := by
  constructor
  · ext i j
    fin_cases i <;> fin_cases j <;>
      simp [DroneModel.Q_omega, Matrix.transpose_apply, Matrix.neg_apply]
  · simp only [Matrix.dotProduct, DroneModel.rhs_q, DroneModel.q_full,
      DroneModel.Q_omega, DroneModel.q_state, Matrix.mulVec, Fin.sum_univ_four,
      Matrix.of_apply, Matrix.cons_val_zero, Matrix.cons_val_one,
      Matrix.head_cons, Matrix.cons_val_two, Matrix.tail_cons,
      Matrix.cons_val_three]
    ring

/-- C10 witness: the hypothesis and both conclusions at the identity
quaternion state. -/
theorem C10_skew_witness :
    DroneModel.q_state x_id ≠ 0 ∧
    ((DroneModel.Q_omega x_id).transpose = -DroneModel.Q_omega x_id ∧
      Matrix.dotProduct (DroneModel.q_state x_id) (DroneModel.rhs_q x_id) = 0) := by
  have hq : DroneModel.q_state x_id ≠ 0 := by
    intro hcon
    have h9 := congrFun hcon 3
    rw [show DroneModel.q_state x_id 3 = 1 from rfl] at h9
    exact one_ne_zero (h9.trans rfl)
  exact ⟨hq, C10_skew_symmetric_and_norm_preserving x_id hq⟩

end Hop
